import Mathlib

/-!
Verification development for the Openconnect-RS CLI daemon
(crates/openconnect-cli: main.rs and sock.rs).

The Rust sources are shallowly embedded: the per-connection handler task
spawned by `try_accept` becomes a pure function from the list of framed
read results to a trace of observable events; the rendezvous-socket
filesystem discipline of `sock.rs` becomes explicit state passing over a
small filesystem model; external collaborators (the accessors of the VPN
engine, `UnixStream::connect`, fork) become parameters or modelled
contracts.
-/

namespace OpenconnectRS

/-- Engine connection status, mirroring `openconnect_core::Status` as it is
consumed in `main.rs` (the payloads of `Connecting` and `Error` are carried
but never inspected by the CLI). -/
inductive Status where
  | Connected
  | Connecting (detail : String)
  | Disconnected
  | Disconnecting
  | Error (detail : String)
  | Initialized
deriving Repr, DecidableEq

/-- Network-info snapshot, mirroring `openconnect_core::ip_info::IpInfo` as
consumed in `main.rs` (fields read in the `Commands::Status` rendering:
addr, netmask, addr6, netmask6, dns[0..3], nbns[0..3], domain, proxy_pac,
mtu, gateway_addr). -/
structure IpInfo where
  addr : Option String
  netmask : Option String
  addr6 : Option String
  netmask6 : Option String
  dns : List (Option String)
  nbns : List (Option String)
  domain : Option String
  proxy_pac : Option String
  mtu : Nat
  gateway_addr : Option String
deriving Repr, DecidableEq

/-- The `VpnClient` accessors used by `try_accept`. `get_server_name`,
`get_server_url` and `get_hostname` may be unavailable (`unwrap_or` in the
source collapses that to `""`). `get_status` and `get_info` read the
current state of the engine, so they are indexed by a query instant: the
handler loop passes an increasing tick to successive requests. `infoAt`
models `get_info()` returning `Result<Option<IpInfo>, _>`. -/
structure VpnClient where
  server_name : Option String
  server_url : Option String
  hostname : Option String
  statusAt : Nat → Status
  infoAt : Nat → Except String (Option IpInfo)

/-- Request type `JsonRequest` from main.rs. -/
inductive JsonRequest where
  | Stop
  | Info
deriving Repr, DecidableEq

/-- Response type `JsonResponse` from main.rs. -/
inductive JsonResponse where
  | StopResult (server_name : String)
  | InfoResult (server_name : String) (server_url : String)
      (hostname : String) (status : String) (info : Option IpInfo)
deriving Repr, DecidableEq

/-- Observable actions of the per-connection handler task in `try_accept`:
the engine `disconnect` call, a framed write of one response, and the
`libc::raise(SIGTERM)` self-signal. -/
inductive Event where
  | disconnectCall
  | send (resp : JsonResponse)
  | raiseSigterm
deriving Repr, DecidableEq

/-- The `match status` rendering in the `JsonRequest::Info` arm of
`try_accept` (main.rs lines 104-112). -/
def statusLabel : Status → String
  | .Connected => "Connected"
  | .Connecting _ => "Connecting"
  | .Disconnected => "Disconnected"
  | .Disconnecting => "Disconnecting"
  | .Error _ => "Error"
  | .Initialized => "Initialized"

/-- The `JsonRequest::Stop` arm of `try_accept` (main.rs lines 85-96):
capture the server name (collapsing unavailability to `""`), call
`disconnect`, send the `StopResult`, then raise SIGTERM at our own
process. `disconnect` is the effect of the external engine on the client,
passed as a parameter. Returns the event trace and the client state seen
by subsequent requests on the same connection. -/
def handleStop (disconnect : VpnClient → VpnClient) (c : VpnClient) :
    List Event × VpnClient :=
  let server_name := c.server_name.getD ""
  ([Event.disconnectCall,
    Event.send (JsonResponse.StopResult server_name),
    Event.raiseSigterm],
   disconnect c)

/-- The `JsonRequest::Info` arm of `try_accept` (main.rs lines 98-124):
each accessor is independently best-effort (`unwrap_or("")` for the three
strings, `.ok().flatten()` for the snapshot), the status is rendered via
the fixed label table, and exactly one `InfoResult` is sent. The client
state is returned unchanged: this arm only reads. -/
def handleInfo (c : VpnClient) (t : Nat) : List Event × VpnClient :=
  let server_name := c.server_name.getD ""
  let server_url := c.server_url.getD ""
  let hostname := c.hostname.getD ""
  let status := statusLabel (c.statusAt t)
  let info := (c.infoAt t).toOption.join
  ([Event.send (JsonResponse.InfoResult server_name server_url hostname
      status info)], c)

/-- One framed read result, as seen by
`while let Ok(Some(command)) = framed_reader.try_next().await`:
`Except.error` is a decode/transport error, `Except.ok none` is
end-of-stream. -/
abbrev ReadItem := Except String (Option JsonRequest)

/-- The body of the task spawned in `try_accept` (main.rs lines 82-127):
a `while let Ok(Some(command))` loop that keeps reading framed requests
from the same connection, dispatching each through the `match`, until the
reader yields an error or end-of-stream. `t` is the tick passed to the
state-reading accessors of the engine. -/
def handlerLoop (disconnect : VpnClient → VpnClient) :
    List ReadItem → VpnClient → Nat → List Event
  | [], _, _ => []
  | Except.ok (some JsonRequest.Stop) :: rest, c, t =>
      (handleStop disconnect c).1 ++
        handlerLoop disconnect rest (handleStop disconnect c).2 (t + 1)
  | Except.ok (some JsonRequest.Info) :: rest, c, t =>
      (handleInfo c t).1 ++
        handlerLoop disconnect rest (handleInfo c t).2 (t + 1)
  | Except.ok none :: _, _, _ => []
  | Except.error _ :: _, _, _ => []

/-- Whether an event is a framed response write. -/
def Event.isSend : Event → Bool
  | .send _ => true
  | _ => false

/-- Number of framed responses written in a trace. -/
def countSends (evs : List Event) : Nat :=
  (evs.filter Event.isSend).length

/-- The requests a `while let Ok(Some(_))` loop actually processes: the
longest leading run of successfully decoded requests. -/
def leadingReqs : List ReadItem → List JsonRequest
  | Except.ok (some r) :: rest => r :: leadingReqs rest
  | _ => []

/-- Extract the identity fields (server_name, server_url, hostname) from an
`InfoResult` send event. -/
def Event.infoFieldsOf : Event → Option (String × String × String)
  | .send (.InfoResult n u h _ _) => some (n, u, h)
  | _ => none

/-! ## Filesystem and rendezvous-socket model (sock.rs) -/

/-- A filesystem state: the set of paths that currently exist. -/
structure FS where
  files : List String
deriving Repr, DecidableEq

/-- Whether a path exists in the filesystem (`Path::exists`). -/
def FS.existsPath (fs : FS) (p : String) : Bool :=
  fs.files.contains p

/-- Remove a path from the filesystem. -/
def FS.remove (fs : FS) (p : String) : FS :=
  ⟨fs.files.filter (fun q => q ≠ p)⟩

/-- Function `get_sock()` from sock.rs: the fixed rendezvous path. -/
def get_sock : String := "/tmp/openconnect-rs.sock"

/-- Function `sock::exists()` from sock.rs. -/
def sockExists (fs : FS) : Bool :=
  fs.existsPath get_sock

/-- Error type `SockError` from sock.rs; the `Io` payload records the OS error kind. -/
inductive SockError where
  | Io (kind : String)
  | NoValidConnection
deriving Repr, DecidableEq

/-- Models the OS contract of `tokio::net::UnixListener::bind` on a path:
binding fails with the address-in-use error when the path already exists
(it never removes or overwrites the existing entry), and on success
creates the socket path. -/
def unixListenerBind (fs : FS) (p : String) : Except SockError FS :=
  if fs.existsPath p then Except.error (SockError.Io "AddrInUse")
  else Except.ok ⟨p :: fs.files⟩

namespace Server

/-- Embeds `Server::bind` from sock.rs (lines 52-58): bind the listener on
`get_sock()`; the subsequent `into_std`/`set_nonblocking`/`from_std` steps
do not touch the path and are modelled as succeeding. Returns the
filesystem after a successful bind. -/
def bind (fs : FS) : Except SockError FS :=
  unixListenerBind fs get_sock

/-- Embeds `impl Drop for Server` from sock.rs (lines 61-66):
`std::fs::remove_file(get_sock()).expect("Failed to remove socket file")`.
`remove_file` fails when the path does not exist; `expect` turns that
failure into a panic, returned here as `Except.error` with the panic
message. -/
def drop (fs : FS) : Except String FS :=
  if fs.existsPath get_sock then Except.ok (fs.remove get_sock)
  else Except.error "Failed to remove socket file"

end Server

/-- Low-level I/O actions a control client may perform against the
socket. -/
inductive NetAction where
  | connectAttempt (p : String)
  | readFrame
  | writeFrame
deriving Repr, DecidableEq

namespace Client

/-- Embeds `Client::connect` from sock.rs (lines 74-88): if the rendezvous path
does not exist, return `NoValidConnection` immediately — before any I/O;
otherwise attempt `UnixStream::connect`, whose outcome is an external
parameter. The trace lists the I/O actions performed. -/
def connect (fs : FS) (streamConnect : Except String Unit) :
    List NetAction × Except SockError Unit :=
  if ¬ (FS.existsPath fs get_sock) then
    ([], Except.error SockError.NoValidConnection)
  else
    match streamConnect with
    | Except.error e => ([NetAction.connectAttempt get_sock],
        Except.error (SockError.Io e))
    | Except.ok _ => ([NetAction.connectAttempt get_sock], Except.ok ())

end Client

/-! ## Stored servers and the daemon entry (main.rs) -/

/-- Mirrors `PasswordServer` from `openconnect_core::storage`, fields as
constructed in `Commands::Add` (main.rs lines 231-238). -/
structure PasswordServer where
  name : String
  server : String
  username : String
  password : Option String
  allow_insecure : Option Bool
  updated_at : Option String
deriving Repr, DecidableEq

/-- Mirrors `OidcServer` from `openconnect_core::storage`, fields as constructed
in `Commands::Add` (main.rs lines 212-220). -/
structure OidcServer where
  name : String
  server : String
  issuer : String
  client_id : String
  client_secret : Option String
  allow_insecure : Option Bool
  updated_at : Option String
deriving Repr, DecidableEq

/-- Mirrors `StoredServer` from `openconnect_core::storage`. -/
inductive StoredServer where
  | Password (ps : PasswordServer)
  | Oidc (os : OidcServer)
deriving Repr, DecidableEq

/-- Steps `start_daemon` (main.rs lines 131-167) performs, in order. -/
inductive DaemonEvent where
  | bindSock
  | installSignalHandlers
  | spawnEngineConnect
  | enterMainLoop
deriving Repr, DecidableEq

/-- How `start_daemon` leaves the process: running its accept/signal main
loop, returning an error value, or panicking. -/
inductive DaemonOutcome where
  | running
  | errored (e : String)
  | panicked (msg : String)
deriving Repr, DecidableEq

/-- Embeds `start_daemon` (main.rs lines 131-167) up to entering the main loop:
bind the rendezvous socket (`Server::bind()?`), install the terminate /
interrupt / quit signal handlers, then match the stored server —
`Password` goes through `connect_password_server` (whose fallible
external setup is the `connectResult` parameter) and on into the
`loop { select! ... }`; `Oidc` panics with "OIDC server not implemented".
Returns the trace of steps reached and the outcome. -/
def start_daemon (fs : FS) (connectResult : Except String Unit)
    (stored_server : StoredServer) : List DaemonEvent × DaemonOutcome :=
  match Server.bind fs with
  | Except.error e => ([], DaemonOutcome.errored (reprStr e))
  | Except.ok _ =>
    match stored_server with
    | StoredServer.Password _ =>
        match connectResult with
        | Except.error e =>
            ([DaemonEvent.bindSock, DaemonEvent.installSignalHandlers],
             DaemonOutcome.errored e)
        | Except.ok _ =>
            ([DaemonEvent.bindSock, DaemonEvent.installSignalHandlers,
              DaemonEvent.spawnEngineConnect, DaemonEvent.enterMainLoop],
             DaemonOutcome.running)
    | StoredServer.Oidc _ =>
        ([DaemonEvent.bindSock, DaemonEvent.installSignalHandlers],
         DaemonOutcome.panicked "OIDC server not implemented")

/-- Mirrors `daemon::ForkResult` as branched on in `Commands::Start` (main.rs
lines 485-506): `Parent` is the originating process, `Child` the
intermediate of the double fork, `Grandchild` the detached worker. -/
inductive ForkResult where
  | Parent
  | Child
  | Grandchild
deriving Repr, DecidableEq

/-- What the `Commands::Start` arm does after `daemonize()` returns. -/
inductive StartOutcome where
  | exited (code : Nat)
  | proceedToDaemon
deriving Repr, DecidableEq

/-- The `match daemon::daemonize()` branch in `Commands::Start` (main.rs
lines 485-506). The Parent synchronously resolves the requested profile
via `get_server` (outcome passed as `getServerResult`), printing and
exiting 1 on failure, else printing the confirmation and exiting 0; the
Child exits 0 immediately; only the Grandchild falls through to build the
runtime, the Control Channel and the supervisor. -/
def startBranch (fork : ForkResult)
    (getServerResult : Except String StoredServer) : StartOutcome :=
  match fork with
  | ForkResult.Parent =>
      match getServerResult with
      | Except.ok _ => StartOutcome.exited 0
      | Except.error _ => StartOutcome.exited 1
  | ForkResult.Child => StartOutcome.exited 0
  | ForkResult.Grandchild => StartOutcome.proceedToDaemon

/-- The pre-daemonization rendezvous check in `Commands::Start` (main.rs
lines 470-478): if the socket path exists, print the advice and
`std::process::exit(1)`; `some code` is an early exit with that code. -/
def startPrecheck (fs : FS) : Option Nat :=
  if sockExists fs then some 1 else none

/-! ## Concrete fixtures used by counterexamples and witnesses -/

/-- A concrete connected client: every accessor available. -/
def cEx : VpnClient :=
  { server_name := some "ex"
    server_url := some "https://ex"
    hostname := some "1.2.3.4"
    statusAt := fun _ => Status.Connected
    infoAt := fun _ => Except.ok none }

/-- A concrete stored password server. -/
def psEx : PasswordServer :=
  { name := "ex", server := "https://ex", username := "u"
    password := some "p", allow_insecure := none, updated_at := none }

/-- A concrete stored OIDC server. -/
def osEx : OidcServer :=
  { name := "ex", server := "https://ex", issuer := "i", client_id := "cid"
    client_secret := none, allow_insecure := none, updated_at := none }

/-! ## Helper lemmas -/

theorem countSends_append (a b : List Event) :
    countSends (a ++ b) = countSends a + countSends b := by
  simp [countSends, List.filter_append]

/-! ## C1 — Stop handling -/

/-- C1 counterexample: the claim says no second request is processed after
a Stop. On the connection stream [Stop, Info] the handler task raises
SIGTERM as its third event and then still processes the Info request,
sending its InfoResult as a fourth event: a second request is processed
after the Stop. -/
theorem stop_then_info_still_processed :
    (handlerLoop (fun c => c)
        [Except.ok (some JsonRequest.Stop), Except.ok (some JsonRequest.Info)]
        cEx 0)[2]? = some Event.raiseSigterm ∧
    (handlerLoop (fun c => c)
        [Except.ok (some JsonRequest.Stop), Except.ok (some JsonRequest.Info)]
        cEx 0)[3]? = some (Event.send (JsonResponse.InfoResult "ex"
          "https://ex" "1.2.3.4" "Connected" none)) :=
  ⟨rfl, rfl⟩

/-- C1 (amended): processing a Stop request emits, in order, the engine
disconnect call, exactly one StopResult send carrying the server name
captured before the disconnect, and only then the synthetic SIGTERM;
afterwards the `while let` loop continues on the remaining stream with the
post-disconnect client. -/
theorem stop_sends_result_before_raise (disconnect : VpnClient → VpnClient)
    (c : VpnClient) (t : Nat) (rest : List ReadItem) :
    handlerLoop disconnect (Except.ok (some JsonRequest.Stop) :: rest) c t =
      [Event.disconnectCall,
       Event.send (JsonResponse.StopResult (c.server_name.getD "")),
       Event.raiseSigterm] ++
        handlerLoop disconnect rest (disconnect c) (t + 1) :=
  rfl

/-! ## C2 — one response per request, but connections are not one-shot -/

/-- C2 counterexample: the claim says each accepted connection serves
exactly one request/response pair. On the stream [Info, Info] the handler
task writes two framed responses on the same connection. -/
theorem two_infos_two_responses :
    countSends (handlerLoop (fun c => c)
      [Except.ok (some JsonRequest.Info), Except.ok (some JsonRequest.Info)]
      cEx 0) = 2 :=
  rfl

/-- C2 (amended): the per-connection handler task loops, writing exactly
one framed response per successfully decoded request, for the whole
leading run of decoded requests, and terminates at the first read error or
end-of-stream. -/
theorem handler_one_response_per_request (disconnect : VpnClient → VpnClient)
    (items : List ReadItem) :
    ∀ (c : VpnClient) (t : Nat),
      countSends (handlerLoop disconnect items c t) =
        (leadingReqs items).length := by
  induction items with
  | nil => intro c t; rfl
  | cons item rest ih =>
    intro c t
    match item with
    | Except.ok (some JsonRequest.Stop) =>
      rw [show handlerLoop disconnect (Except.ok (some JsonRequest.Stop) :: rest) c t =
        (handleStop disconnect c).1 ++
          handlerLoop disconnect rest (handleStop disconnect c).2 (t + 1) from rfl]
      rw [countSends_append, ih]
      simp [leadingReqs, countSends, handleStop, Event.isSend, Nat.add_comm]
    | Except.ok (some JsonRequest.Info) =>
      rw [show handlerLoop disconnect (Except.ok (some JsonRequest.Info) :: rest) c t =
        (handleInfo c t).1 ++
          handlerLoop disconnect rest (handleInfo c t).2 (t + 1) from rfl]
      rw [countSends_append, ih]
      simp [leadingReqs, countSends, handleInfo, Event.isSend, Nat.add_comm]
    | Except.ok none => rfl
    | Except.error e => rfl

/-! ## C3 — binding fails closed when the rendezvous path exists -/

/-- C3: whenever the rendezvous path already exists, `Server::bind` fails
with the address-in-use I/O error rather than succeeding or overwriting
(no successful result and no new filesystem state is produced), and the
pre-daemonization check in `Commands::Start` exits with code 1. -/
theorem bind_fails_when_sock_exists (fs : FS) (h : sockExists fs = true) :
    Server.bind fs = Except.error (SockError.Io "AddrInUse") ∧
    startPrecheck fs = some 1 := by
  unfold sockExists at h
  constructor
  · unfold Server.bind unixListenerBind
    simp [h]
  · unfold startPrecheck sockExists
    simp [h]

/-- C3 witness: with only the socket path on disk, bind errors and the
start pre-check exits 1. -/
theorem bind_fails_when_sock_exists_witness :
    sockExists ⟨[get_sock]⟩ = true ∧
    Server.bind ⟨[get_sock]⟩ = Except.error (SockError.Io "AddrInUse") ∧
    startPrecheck ⟨[get_sock]⟩ = some 1 :=
  ⟨rfl, (bind_fails_when_sock_exists ⟨[get_sock]⟩ rfl).1,
    (bind_fails_when_sock_exists ⟨[get_sock]⟩ rfl).2⟩

/-! ## C4 — Drop removes the rendezvous path, loudly on failure -/

/-- C4: when the Server value is dropped while the rendezvous path exists
(the normal shutdown path), the path is removed, so it no longer exists
afterwards; and whenever the removal cannot be performed, the drop
panics with "Failed to remove socket file" instead of swallowing the
failure. -/
theorem server_drop_removes_sock (fs : FS) (h : sockExists fs = true) :
    (Server.drop fs = Except.ok (fs.remove get_sock) ∧
      sockExists (fs.remove get_sock) = false) ∧
    ∀ fs₂ : FS, sockExists fs₂ = false →
      Server.drop fs₂ = Except.error "Failed to remove socket file" := by
  refine ⟨⟨?_, ?_⟩, ?_⟩
  · unfold Server.drop
    unfold sockExists at h
    simp [h]
  · simp [sockExists, FS.existsPath, FS.remove, List.mem_filter]
  · intro fs₂ h₂
    unfold sockExists at h₂
    unfold Server.drop
    simp [h₂]

/-- C4 witness: dropping the server with the socket on disk removes it;
dropping it with the socket already gone panics. -/
theorem server_drop_removes_sock_witness :
    Server.drop ⟨[get_sock]⟩ = Except.ok (FS.remove ⟨[get_sock]⟩ get_sock) ∧
    sockExists (FS.remove ⟨[get_sock]⟩ get_sock) = false ∧
    Server.drop ⟨[]⟩ = Except.error "Failed to remove socket file" :=
  ⟨(server_drop_removes_sock ⟨[get_sock]⟩ rfl).1.1,
   (server_drop_removes_sock ⟨[get_sock]⟩ rfl).1.2,
   (server_drop_removes_sock ⟨[get_sock]⟩ rfl).2 ⟨[]⟩ rfl⟩

/-! ## C5 — client connect fails fast when the daemon is not running -/

/-- C5: when the rendezvous path does not exist, `Client::connect` returns
`NoValidConnection` with an empty I/O action trace — no read, write or
connection attempt is performed, whatever the stream connect would have
done; and whenever the path exists, the first action performed is the
connection attempt on the socket path. -/
theorem client_connect_not_running (fs : FS) (sc : Except String Unit)
    (h : sockExists fs = false) :
    Client.connect fs sc = ([], Except.error SockError.NoValidConnection) ∧
    ∀ (fs₂ : FS) (sc₂ : Except String Unit), sockExists fs₂ = true →
      (Client.connect fs₂ sc₂).1 = [NetAction.connectAttempt get_sock] := by
  constructor
  · unfold sockExists at h
    unfold Client.connect
    simp [h]
  · intro fs₂ sc₂ h₂
    unfold sockExists at h₂
    unfold Client.connect
    cases sc₂ <;> simp [h₂]

/-- C5 witness: on an empty filesystem connect fails fast with no I/O; on
a filesystem holding the socket it attempts the connection. -/
theorem client_connect_not_running_witness :
    Client.connect ⟨[]⟩ (Except.ok ()) =
      ([], Except.error SockError.NoValidConnection) ∧
    (Client.connect ⟨[get_sock]⟩ (Except.ok ())).1 =
      [NetAction.connectAttempt get_sock] :=
  ⟨(client_connect_not_running ⟨[]⟩ (Except.ok ()) rfl).1,
   (client_connect_not_running ⟨[]⟩ (Except.ok ()) rfl).2
     ⟨[get_sock]⟩ (Except.ok ()) rfl⟩

/-! ## C6 — InfoQuery is best-effort in every field -/

/-- C6: for every client state and query instant, handling an InfoQuery
produces exactly one response, an InfoResult whose name, URL and hostname
fields collapse an unavailable accessor to the empty string (`getD ""`),
whose info field collapses an unobtainable snapshot to `none`
(`toOption.join` is `.ok().flatten()`), and the request never fails: the
client state is returned unchanged and the trace is never empty. -/
theorem info_query_best_effort (c : VpnClient) (t : Nat) :
    (handleInfo c t).1.length = 1 ∧
    (handleInfo c t).1 = [Event.send (JsonResponse.InfoResult
      (c.server_name.getD "") (c.server_url.getD "") (c.hostname.getD "")
      (statusLabel (c.statusAt t)) ((c.infoAt t).toOption.join))] ∧
    (handleInfo c t).2 = c :=
  ⟨rfl, rfl, rfl⟩

/-! ## C7 — post-daemonize role branching -/

/-- C7: after `daemonize()` returns, the Parent (Originator) exits 0 when
the synchronous profile resolution succeeds and exits 1 when it fails;
the Child (Intermediate) exits 0 immediately whatever the resolution
outcome would be; the Grandchild (Worker) proceeds to the daemon; and the
Worker role is the only one that proceeds. -/
theorem start_branch_roles (r : Except String StoredServer) (e : String)
    (s : StoredServer) :
    startBranch ForkResult.Parent (Except.ok s) = StartOutcome.exited 0 ∧
    startBranch ForkResult.Parent (Except.error e) = StartOutcome.exited 1 ∧
    startBranch ForkResult.Child r = StartOutcome.exited 0 ∧
    startBranch ForkResult.Grandchild r = StartOutcome.proceedToDaemon ∧
    ∀ (f : ForkResult) (r₂ : Except String StoredServer),
      startBranch f r₂ = StartOutcome.proceedToDaemon →
        f = ForkResult.Grandchild := by
  refine ⟨rfl, rfl, rfl, rfl, ?_⟩
  intro f r₂ h₂
  cases f with
  | Parent => cases r₂ <;> simp [startBranch] at h₂
  | Child => simp [startBranch] at h₂
  | Grandchild => rfl

/-- C7 witness: concrete outcomes for each role, and the only-Worker
property applied at the Grandchild. -/
theorem start_branch_roles_witness :
    startBranch ForkResult.Parent (Except.ok (StoredServer.Password psEx)) =
      StartOutcome.exited 0 ∧
    startBranch ForkResult.Parent (Except.error "no such server") =
      StartOutcome.exited 1 ∧
    startBranch ForkResult.Child (Except.ok (StoredServer.Password psEx)) =
      StartOutcome.exited 0 ∧
    startBranch ForkResult.Grandchild (Except.ok (StoredServer.Password psEx)) =
      StartOutcome.proceedToDaemon ∧
    ForkResult.Grandchild = ForkResult.Grandchild :=
  ⟨(start_branch_roles (Except.ok (StoredServer.Password psEx))
      "no such server" (StoredServer.Password psEx)).1,
   (start_branch_roles (Except.ok (StoredServer.Password psEx))
      "no such server" (StoredServer.Password psEx)).2.1,
   (start_branch_roles (Except.ok (StoredServer.Password psEx))
      "no such server" (StoredServer.Password psEx)).2.2.1,
   (start_branch_roles (Except.ok (StoredServer.Password psEx))
      "no such server" (StoredServer.Password psEx)).2.2.2.1,
   (start_branch_roles (Except.ok (StoredServer.Password psEx))
      "no such server" (StoredServer.Password psEx)).2.2.2.2
     ForkResult.Grandchild (Except.ok (StoredServer.Password psEx)) rfl⟩

/-! ## C8 — Info reads are idempotent on the identity fields -/

/-- C8: over any run of consecutive InfoQuery requests on one connection
(no intervening Stop), every InfoResult sent carries the same server_name,
server_url and hostname triple — the one read from the unchanged client —
whatever status and snapshot the engine reports at each instant. -/
theorem info_reads_idempotent (disconnect : VpnClient → VpnClient)
    (c : VpnClient) :
    ∀ (n t : Nat),
      (handlerLoop disconnect
        (List.replicate n (Except.ok (some JsonRequest.Info))) c t).filterMap
          Event.infoFieldsOf =
        List.replicate n
          (c.server_name.getD "", c.server_url.getD "", c.hostname.getD "") := by
  intro n
  induction n with
  | zero => intro t; rfl
  | succ n ih =>
    intro t
    have step : handlerLoop disconnect
        (List.replicate (n + 1) (Except.ok (some JsonRequest.Info))) c t =
        (handleInfo c t).1 ++
          handlerLoop disconnect
            (List.replicate n (Except.ok (some JsonRequest.Info))) c (t + 1) := by
      rw [List.replicate_succ]
      rfl
    rw [step, List.filterMap_append, ih]
    simp [handleInfo, Event.infoFieldsOf, List.replicate_succ]

/-! ## C9 — the status label is one of six fixed strings -/

/-- Extract the status field from an `InfoResult` send event. -/
def Event.statusOf : Event → Option String
  | .send (.InfoResult _ _ _ st _) => some st
  | _ => none

/-- C9: the status string of the InfoResult produced for any client state
and instant is the label of the State the engine reports at that instant, and the
label function maps every State variant into the fixed six-string set. -/
theorem info_status_one_of_six (c : VpnClient) (t : Nat) :
    (handleInfo c t).1.filterMap Event.statusOf =
      [statusLabel (c.statusAt t)] ∧
    ∀ s : Status, statusLabel s ∈
      ["Connected", "Connecting", "Disconnected", "Disconnecting",
       "Error", "Initialized"] := by
  refine ⟨rfl, ?_⟩
  intro s
  cases s <;> simp [statusLabel]

/-! ## C10 — OIDC servers panic in start_daemon -/

/-- C10: with the rendezvous path free (so bind succeeds) and any outcome
for the engine-connect setup, `start_daemon` on an Oidc stored server
binds the socket and installs the signal handlers, then panics with
"OIDC server not implemented" — it neither runs the main loop nor returns
an error value; and any run that reaches the main loop was started on a
Password server. -/
theorem oidc_start_panics (fs : FS) (cr : Except String Unit)
    (os : OidcServer) (h : sockExists fs = false) :
    start_daemon fs cr (StoredServer.Oidc os) =
      ([DaemonEvent.bindSock, DaemonEvent.installSignalHandlers],
       DaemonOutcome.panicked "OIDC server not implemented") ∧
    ∀ (fs₂ : FS) (cr₂ : Except String Unit) (s₂ : StoredServer),
      (start_daemon fs₂ cr₂ s₂).2 = DaemonOutcome.running →
        ∃ ps, s₂ = StoredServer.Password ps := by
  constructor
  · unfold sockExists at h
    unfold start_daemon Server.bind unixListenerBind
    simp [h]
  · intro fs₂ cr₂ s₂ h₂
    unfold start_daemon at h₂
    cases hb : Server.bind fs₂ with
    | error e => rw [hb] at h₂; simp at h₂
    | ok fs' =>
      rw [hb] at h₂
      cases s₂ with
      | Password ps => exact ⟨ps, rfl⟩
      | Oidc os₂ => simp at h₂

/-- C10 witness: on an empty filesystem the Oidc server panics after bind
and signal installation, and a Password server that reaches the main loop
instantiates the only-Password property. -/
theorem oidc_start_panics_witness :
    start_daemon ⟨[]⟩ (Except.ok ()) (StoredServer.Oidc osEx) =
      ([DaemonEvent.bindSock, DaemonEvent.installSignalHandlers],
       DaemonOutcome.panicked "OIDC server not implemented") ∧
    ∃ ps, StoredServer.Password psEx = StoredServer.Password ps :=
  ⟨(oidc_start_panics ⟨[]⟩ (Except.ok ()) osEx rfl).1,
   (oidc_start_panics ⟨[]⟩ (Except.ok ()) osEx rfl).2 ⟨[]⟩ (Except.ok ())
     (StoredServer.Password psEx) rfl⟩

end OpenconnectRS
